import Mathlib

/-!
Shallow embedding of `mshv-ioctls/src/ioctls/system.rs` (the `Mshv` system-ioctl
wrapper) and of the collaborator pieces its contract depends on.

The kernel boundary (device open, partition creation, property get/set,
partition initialization) is modelled as a deterministic responder `Kernel`:
each control call returns an `Int` status (non-negative on success, negative on
failure), and `lastError` is the last system error code, as read by
`errno::Error::last()` at a failure site.  Each embedded operation returns its
result together with the trace of control calls it issued, so that sequencing
properties can be stated.
-/

namespace MshvSys

/-- Target architecture. The source gates one feature bit on
`#[cfg(not(target_arch = "aarch64"))]` and the MSR catalog on
`#[cfg(target_arch = "x86_64")]`. -/
inductive Arch where
  | x86_64
  | aarch64
deriving DecidableEq, Repr

/-- Modelled from the spec: the VM flavor `VmType` (`Normal | Snp`) is declared
in `ioctls/vm.rs`, which is not among the provided sources; the spec (§4.1)
gives it exactly these two alternatives. -/
inductive VmType where
  | normal
  | snp
deriving DecidableEq, Repr

/-- Modelled from the spec: the creation request payload, an immutable pair
{flags bitmask, isolation mode} (spec §3, §6); the struct itself is declared in
`mshv-bindings`, outside the provided sources. -/
structure mshv_create_partition where
  pt_flags : Nat
  pt_isolation : Nat
deriving DecidableEq, Repr

/-- Modelled from the spec: the structured error value `OsError(code)` wrapping
the operating system's last-error code (spec §7); the concrete type is
`vmm_sys_util::errno::Error`, outside the provided sources. -/
structure OsError where
  code : Int
deriving DecidableEq, Repr

/-- Wrapper over a created partition descriptor (`VmFd` adopts the descriptor
returned by the creation control call). -/
structure VmFd where
  fd : Int
deriving DecidableEq, Repr

/-- Modelled from the spec: bit positions of the partition-creation flags are
platform-ABI-defined (spec §9); the constants live in `mshv-bindings`. The
values used here are the Linux `mshv.h` ABI bit indices. -/
def MSHV_PT_BIT_LAPIC : Nat := 0

/-- Modelled from the spec: see `MSHV_PT_BIT_LAPIC`. -/
def MSHV_PT_BIT_X2APIC : Nat := 1

/-- Modelled from the spec: see `MSHV_PT_BIT_LAPIC`. -/
def MSHV_PT_BIT_GPA_SUPER_PAGES : Nat := 2

/-- Modelled from the spec: the no-isolation constant (spec §4.2). -/
def MSHV_PT_ISOLATION_NONE : Nat := 0

/-- Modelled from the spec: the hardware-isolation (SNP) constant (spec §4.2). -/
def MSHV_PT_ISOLATION_SNP : Nat := 1

/-- Modelled from the spec: the property code for the synthetic processor
feature mask (`HV_PARTITION_PROPERTY_SYNTHETIC_PROC_FEATURES`), a
platform-ABI-defined numeric code from `mshv-bindings` (spec §9). -/
def HV_PARTITION_PROPERTY_SYNTHETIC_PROC_FEATURES : Nat := 0x00060002

/-- Modelled from the spec: `set_bits!(u64, b, ...)` (a macro of the crate,
outside the provided sources) folds `1 <<< b` into an accumulator with
bitwise-OR, i.e. flags = bitwise-OR of the named bits (spec §4.2). -/
def set_bits (bits : List Nat) : Nat :=
  bits.foldl (fun acc b => acc ||| (1 <<< b)) 0

/-- Modelled from the spec: bit position assigned by the bindgen setter
`set_hypervisor_present` of `hv_partition_synthetic_processor_features`
(`mshv-bindings`, outside the provided sources). Exact positions are
platform-ABI-defined (spec §9); what matters to the embedded code is that the
positions are fixed and pairwise distinct. -/
def FEAT_BIT_hypervisor_present : Nat := 0

/-- Modelled from the spec: see `FEAT_BIT_hypervisor_present`. -/
def FEAT_BIT_hv1 : Nat := 1

/-- Modelled from the spec: see `FEAT_BIT_hypervisor_present`. -/
def FEAT_BIT_access_partition_reference_counter : Nat := 3

/-- Modelled from the spec: see `FEAT_BIT_hypervisor_present`. -/
def FEAT_BIT_access_synic_regs : Nat := 4

/-- Modelled from the spec: see `FEAT_BIT_hypervisor_present`. -/
def FEAT_BIT_access_synthetic_timer_regs : Nat := 5

/-- Modelled from the spec: see `FEAT_BIT_hypervisor_present`. -/
def FEAT_BIT_access_intr_ctrl_regs : Nat := 6

/-- Modelled from the spec: see `FEAT_BIT_hypervisor_present`. -/
def FEAT_BIT_access_hypercall_regs : Nat := 7

/-- Modelled from the spec: see `FEAT_BIT_hypervisor_present`. -/
def FEAT_BIT_access_vp_index : Nat := 8

/-- Modelled from the spec: see `FEAT_BIT_hypervisor_present`. -/
def FEAT_BIT_access_partition_reference_tsc : Nat := 11

/-- Modelled from the spec: see `FEAT_BIT_hypervisor_present`. -/
def FEAT_BIT_access_guest_idle_reg : Nat := 12

/-- Modelled from the spec: see `FEAT_BIT_hypervisor_present`. -/
def FEAT_BIT_access_frequency_regs : Nat := 13

/-- Modelled from the spec: see `FEAT_BIT_hypervisor_present`. -/
def FEAT_BIT_tb_flush_hypercalls : Nat := 21

/-- Modelled from the spec: see `FEAT_BIT_hypervisor_present`. -/
def FEAT_BIT_synthetic_cluster_ipi : Nat := 22

/-- Modelled from the spec: see `FEAT_BIT_hypervisor_present`. -/
def FEAT_BIT_direct_synthetic_timers : Nat := 23

/-- The bit positions set by `create_vm_with_type` (system.rs:90-108), in the
order the setters are called; `access_guest_idle_reg` is gated by
`#[cfg(not(target_arch = "aarch64"))]`. -/
def synthFeatureBits (arch : Arch) : List Nat :=
  [FEAT_BIT_hypervisor_present,
   FEAT_BIT_hv1,
   FEAT_BIT_access_partition_reference_counter,
   FEAT_BIT_access_synic_regs,
   FEAT_BIT_access_synthetic_timer_regs,
   FEAT_BIT_access_partition_reference_tsc,
   FEAT_BIT_access_frequency_regs,
   FEAT_BIT_access_intr_ctrl_regs,
   FEAT_BIT_access_vp_index,
   FEAT_BIT_access_hypercall_regs]
  ++ (if arch = Arch.aarch64 then [] else [FEAT_BIT_access_guest_idle_reg])
  ++ [FEAT_BIT_tb_flush_hypercalls,
      FEAT_BIT_synthetic_cluster_ipi,
      FEAT_BIT_direct_synthetic_timers]

/-- The 64-bit synthetic-processor feature mask built by `create_vm_with_type`
(system.rs:90-108): starting from `Default::default()` (all zero), each bindgen
setter `set_x(1)` ORs its bit into the word; `features.as_uint64[0]` reads the
resulting 64-bit value. -/
def synthetic_proc_features (arch : Arch) : Nat :=
  set_bits (synthFeatureBits arch)

/-- Modelled from the spec: the kernel boundary as a deterministic responder
(spec §6): each control call, identified by its request code and payload,
returns a non-negative result on success (for creation calls, a new descriptor
number) or a negative status; `lastError` is the last system error code. That
a device-level property read is read-only and stable within a session is spec
§8 ("read-only, stable within a session"), reflected here by the responder
being a pure function. -/
structure Kernel where
  openDevice : String → Nat → Int
  createPartition : mshv_create_partition → Int
  getHostPartitionProperty : Nat → Int
  setPartitionProperty : Nat → Nat → Int
  initializePartition : Int
  lastError : Int

/-- One control call as recorded in a trace, with its payload. -/
inductive Call where
  | openDevice (path : String) (flags : Nat)
  | createPartition (args : mshv_create_partition)
  | setPartitionProperty (code : Nat) (value : Nat)
  | initializePartition
  | getHostPartitionProperty (code : Nat)
deriving DecidableEq, Repr

/-- Modelled from the spec: `O_NONBLOCK` is the platform-ABI non-blocking open
flag (Linux value, bit 11). -/
def O_NONBLOCK : Nat := 2048

/-- Modelled from the spec: `O_CLOEXEC` is the platform-ABI close-on-exec open
flag (Linux value, bit 19). -/
def O_CLOEXEC : Nat := 524288

/-- The fixed hypervisor device path opened by `open_with_cloexec`
(system.rs:55). -/
def devicePath : String := "/dev/mshv"

/-- The flags word computed by `open_with_cloexec` (system.rs:53):
`O_NONBLOCK | if close_on_exec { O_CLOEXEC } else { 0 }`. -/
def openFlags (close_on_exec : Bool) : Nat :=
  O_NONBLOCK ||| (if close_on_exec then O_CLOEXEC else 0)

/-- `Mshv::open_with_cloexec` (system.rs:52-61): opens `/dev/mshv` with
`openFlags close_on_exec`; a negative return becomes
`Err(errno::Error::last())`, otherwise the descriptor is returned. -/
def open_with_cloexec (k : Kernel) (close_on_exec : Bool) :
    Except OsError Int × List Call :=
  let ret := k.openDevice devicePath (openFlags close_on_exec)
  let t := [Call.openDevice devicePath (openFlags close_on_exec)]
  if ret < 0 then (Except.error ⟨k.lastError⟩, t) else (Except.ok ret, t)

/-- `Mshv::create_vm_with_args` (system.rs:64-74): issues
`MSHV_CREATE_PARTITION` with the given request; on `ret >= 0` adopts `ret` as
the new partition descriptor, otherwise returns `Err(errno::Error::last())`. -/
def create_vm_with_args (k : Kernel) (args : mshv_create_partition) :
    Except OsError VmFd × List Call :=
  let ret := k.createPartition args
  let t := [Call.createPartition args]
  if 0 ≤ ret then (Except.ok ⟨ret⟩, t) else (Except.error ⟨k.lastError⟩, t)

/-- `Mshv::get_host_partition_property` (system.rs:77-86): issues
`MSHV_GET_HOST_PARTITION_PROPERTY` with the property code; `ret >= 0` is
returned as the value, a negative `ret` becomes `Err(errno::Error::last())`.
The session (`Kernel`) is returned alongside: the read leaves it unchanged. -/
def get_host_partition_property (k : Kernel) (property_code : Nat) :
    (Except OsError Int × List Call) × Kernel :=
  let ret := k.getHostPartitionProperty property_code
  let t := [Call.getHostPartitionProperty property_code]
  (if 0 ≤ ret then (Except.ok ret, t) else (Except.error ⟨k.lastError⟩, t), k)

/-- Modelled from the spec: `VmFd::hvcall_set_partition_property(code, value)`
(declared in `ioctls/vm.rs`, outside the provided sources) issues the
set-partition-property control call and fails with `OsError` on a negative
status (spec §6: `setProperty(code, value) -> Result`). -/
def hvcall_set_partition_property (k : Kernel) (code : Nat) (value : Nat) :
    Except OsError Unit :=
  if k.setPartitionProperty code value < 0 then Except.error ⟨k.lastError⟩
  else Except.ok ()

/-- Modelled from the spec: `VmFd::initialize()` (declared in `ioctls/vm.rs`,
outside the provided sources) issues the initialize-partition control call and
fails with `OsError` on a negative status (spec §6: `initialize() -> Result`). -/
def vmfd_initialize (k : Kernel) : Except OsError Unit :=
  if k.initializePartition < 0 then Except.error ⟨k.lastError⟩
  else Except.ok ()

/-- The creation request assembled by `create_vm_with_type` (system.rs:109-124):
`pt_flags = set_bits!(u64, LAPIC, X2APIC, GPA_SUPER_PAGES)` and
`pt_isolation = SNP if vm_type == Snp else NONE`. -/
def createArgs (vm_type : VmType) : mshv_create_partition :=
  { pt_flags := set_bits [MSHV_PT_BIT_LAPIC, MSHV_PT_BIT_X2APIC,
                          MSHV_PT_BIT_GPA_SUPER_PAGES],
    pt_isolation := if vm_type = VmType.snp then MSHV_PT_ISOLATION_SNP
                    else MSHV_PT_ISOLATION_NONE }

/-- `Mshv::create_vm_with_type` (system.rs:89-137): builds the synthetic
feature mask and the creation request, creates the partition via
`create_vm_with_args`, then (the `?` operator propagating any error) sets the
synthetic-processor-features property and finally initializes the partition. -/
def create_vm_with_type (arch : Arch) (k : Kernel) (vm_type : VmType) :
    Except OsError VmFd × List Call :=
  let features := synthetic_proc_features arch
  let create_args := createArgs vm_type
  match create_vm_with_args k create_args with
  | (Except.error e, t) => (Except.error e, t)
  | (Except.ok vm, t) =>
    let t := t ++ [Call.setPartitionProperty
      HV_PARTITION_PROPERTY_SYNTHETIC_PROC_FEATURES features]
    match hvcall_set_partition_property k
      HV_PARTITION_PROPERTY_SYNTHETIC_PROC_FEATURES features with
    | Except.error e => (Except.error e, t)
    | Except.ok _ =>
      let t := t ++ [Call.initializePartition]
      match vmfd_initialize k with
      | Except.error e => (Except.error e, t)
      | Except.ok _ => (Except.ok vm, t)

/-- `Mshv::create_vm` (system.rs:140-142): `create_vm_with_type(VmType::Normal)`. -/
def create_vm (arch : Arch) (k : Kernel) : Except OsError VmFd × List Call :=
  create_vm_with_type arch k VmType.normal

/-!
MSR identifiers referenced by `get_msr_index_list` (system.rs:146-229).
Modelled from the spec: the named constants are declared in `mshv-bindings`,
outside the provided sources; their numeric values are the x86 / Hyper-V
platform-ABI register numbers (spec §9: platform-ABI-defined identifiers).
-/

/-- Modelled from the spec: platform-ABI MSR number. -/
def IA32_MSR_TSC : Nat := 0x10

/-- Modelled from the spec: platform-ABI MSR number. -/
def IA32_MSR_EFER : Nat := 0xC0000080

/-- Modelled from the spec: platform-ABI MSR number. -/
def IA32_MSR_KERNEL_GS_BASE : Nat := 0xC0000102

/-- Modelled from the spec: platform-ABI MSR number. -/
def IA32_MSR_APIC_BASE : Nat := 0x1B

/-- Modelled from the spec: platform-ABI MSR number. -/
def IA32_MSR_PAT : Nat := 0x277

/-- Modelled from the spec: platform-ABI MSR number. -/
def IA32_MSR_SYSENTER_CS : Nat := 0x174

/-- Modelled from the spec: platform-ABI MSR number. -/
def IA32_MSR_SYSENTER_ESP : Nat := 0x175

/-- Modelled from the spec: platform-ABI MSR number. -/
def IA32_MSR_SYSENTER_EIP : Nat := 0x176

/-- Modelled from the spec: platform-ABI MSR number. -/
def IA32_MSR_STAR : Nat := 0xC0000081

/-- Modelled from the spec: platform-ABI MSR number. -/
def IA32_MSR_LSTAR : Nat := 0xC0000082

/-- Modelled from the spec: platform-ABI MSR number. -/
def IA32_MSR_CSTAR : Nat := 0xC0000083

/-- Modelled from the spec: platform-ABI MSR number. -/
def IA32_MSR_SFMASK : Nat := 0xC0000084

/-- Modelled from the spec: platform-ABI MSR number. -/
def IA32_MSR_MTRR_DEF_TYPE : Nat := 0x2FF

/-- Modelled from the spec: platform-ABI MSR number. -/
def IA32_MSR_MTRR_PHYSBASE0 : Nat := 0x200

/-- Modelled from the spec: platform-ABI MSR number. -/
def IA32_MSR_MTRR_PHYSMASK0 : Nat := 0x201

/-- Modelled from the spec: platform-ABI MSR number. -/
def IA32_MSR_MTRR_PHYSBASE1 : Nat := 0x202

/-- Modelled from the spec: platform-ABI MSR number. -/
def IA32_MSR_MTRR_PHYSMASK1 : Nat := 0x203

/-- Modelled from the spec: platform-ABI MSR number. -/
def IA32_MSR_MTRR_PHYSBASE2 : Nat := 0x204

/-- Modelled from the spec: platform-ABI MSR number. -/
def IA32_MSR_MTRR_PHYSMASK2 : Nat := 0x205

/-- Modelled from the spec: platform-ABI MSR number. -/
def IA32_MSR_MTRR_PHYSBASE3 : Nat := 0x206

/-- Modelled from the spec: platform-ABI MSR number. -/
def IA32_MSR_MTRR_PHYSMASK3 : Nat := 0x207

/-- Modelled from the spec: platform-ABI MSR number. -/
def IA32_MSR_MTRR_PHYSBASE4 : Nat := 0x208

/-- Modelled from the spec: platform-ABI MSR number. -/
def IA32_MSR_MTRR_PHYSMASK4 : Nat := 0x209

/-- Modelled from the spec: platform-ABI MSR number. -/
def IA32_MSR_MTRR_PHYSBASE5 : Nat := 0x20A

/-- Modelled from the spec: platform-ABI MSR number. -/
def IA32_MSR_MTRR_PHYSMASK5 : Nat := 0x20B

/-- Modelled from the spec: platform-ABI MSR number. -/
def IA32_MSR_MTRR_PHYSBASE6 : Nat := 0x20C

/-- Modelled from the spec: platform-ABI MSR number. -/
def IA32_MSR_MTRR_PHYSMASK6 : Nat := 0x20D

/-- Modelled from the spec: platform-ABI MSR number. -/
def IA32_MSR_MTRR_PHYSBASE7 : Nat := 0x20E

/-- Modelled from the spec: platform-ABI MSR number. -/
def IA32_MSR_MTRR_PHYSMASK7 : Nat := 0x20F

/-- Modelled from the spec: platform-ABI MSR number. -/
def IA32_MSR_MTRR_FIX64K_00000 : Nat := 0x250

/-- Modelled from the spec: platform-ABI MSR number. -/
def IA32_MSR_MTRR_FIX16K_80000 : Nat := 0x258

/-- Modelled from the spec: platform-ABI MSR number. -/
def IA32_MSR_MTRR_FIX16K_A0000 : Nat := 0x259

/-- Modelled from the spec: platform-ABI MSR number. -/
def IA32_MSR_MTRR_FIX4K_C0000 : Nat := 0x268

/-- Modelled from the spec: platform-ABI MSR number. -/
def IA32_MSR_MTRR_FIX4K_C8000 : Nat := 0x269

/-- Modelled from the spec: platform-ABI MSR number. -/
def IA32_MSR_MTRR_FIX4K_D0000 : Nat := 0x26A

/-- Modelled from the spec: platform-ABI MSR number. -/
def IA32_MSR_MTRR_FIX4K_D8000 : Nat := 0x26B

/-- Modelled from the spec: platform-ABI MSR number. -/
def IA32_MSR_MTRR_FIX4K_E0000 : Nat := 0x26C

/-- Modelled from the spec: platform-ABI MSR number. -/
def IA32_MSR_MTRR_FIX4K_E8000 : Nat := 0x26D

/-- Modelled from the spec: platform-ABI MSR number. -/
def IA32_MSR_MTRR_FIX4K_F0000 : Nat := 0x26E

/-- Modelled from the spec: platform-ABI MSR number. -/
def IA32_MSR_MTRR_FIX4K_F8000 : Nat := 0x26F

/-- Modelled from the spec: platform-ABI MSR number. -/
def IA32_MSR_TSC_AUX : Nat := 0xC0000103

/-- Modelled from the spec: platform-ABI MSR number. -/
def IA32_MSR_DEBUG_CTL : Nat := 0x1D9

/-- Modelled from the spec: platform-ABI synthetic MSR number. -/
def HV_X64_MSR_GUEST_OS_ID : Nat := 0x40000000

/-- Modelled from the spec: platform-ABI synthetic MSR number. -/
def HV_X64_MSR_SINT0 : Nat := 0x40000090

/-- Modelled from the spec: platform-ABI synthetic MSR number. -/
def HV_X64_MSR_SINT1 : Nat := 0x40000091

/-- Modelled from the spec: platform-ABI synthetic MSR number. -/
def HV_X64_MSR_SINT2 : Nat := 0x40000092

/-- Modelled from the spec: platform-ABI synthetic MSR number. -/
def HV_X64_MSR_SINT3 : Nat := 0x40000093

/-- Modelled from the spec: platform-ABI synthetic MSR number. -/
def HV_X64_MSR_SINT4 : Nat := 0x40000094

/-- Modelled from the spec: platform-ABI synthetic MSR number. -/
def HV_X64_MSR_SINT5 : Nat := 0x40000095

/-- Modelled from the spec: platform-ABI synthetic MSR number. -/
def HV_X64_MSR_SINT6 : Nat := 0x40000096

/-- Modelled from the spec: platform-ABI synthetic MSR number. -/
def HV_X64_MSR_SINT7 : Nat := 0x40000097

/-- Modelled from the spec: platform-ABI synthetic MSR number. -/
def HV_X64_MSR_SINT8 : Nat := 0x40000098

/-- Modelled from the spec: platform-ABI synthetic MSR number. -/
def HV_X64_MSR_SINT9 : Nat := 0x40000099

/-- Modelled from the spec: platform-ABI synthetic MSR number. -/
def HV_X64_MSR_SINT10 : Nat := 0x4000009A

/-- Modelled from the spec: platform-ABI synthetic MSR number. -/
def HV_X64_MSR_SINT11 : Nat := 0x4000009B

/-- Modelled from the spec: platform-ABI synthetic MSR number. -/
def HV_X64_MSR_SINT12 : Nat := 0x4000009C

/-- Modelled from the spec: platform-ABI synthetic MSR number. -/
def HV_X64_MSR_SINT13 : Nat := 0x4000009D

/-- Modelled from the spec: platform-ABI synthetic MSR number. -/
def HV_X64_MSR_SINT14 : Nat := 0x4000009E

/-- Modelled from the spec: platform-ABI synthetic MSR number. -/
def HV_X64_MSR_SINT15 : Nat := 0x4000009F

/-- Modelled from the spec: platform-ABI synthetic MSR number. -/
def HV_X64_MSR_SCONTROL : Nat := 0x40000080

/-- Modelled from the spec: platform-ABI synthetic MSR number. -/
def HV_X64_MSR_SIEFP : Nat := 0x40000082

/-- Modelled from the spec: platform-ABI synthetic MSR number. -/
def HV_X64_MSR_SIMP : Nat := 0x40000083

/-- Modelled from the spec: platform-ABI synthetic MSR number. -/
def HV_X64_MSR_REFERENCE_TSC : Nat := 0x40000021

/-- Modelled from the spec: platform-ABI synthetic MSR number. -/
def HV_X64_MSR_EOM : Nat := 0x40000084

/-- The entry list passed to `MsrList::from_entries` by `get_msr_index_list`
(system.rs:148-227), in source order; the commented-out entries
(`IA32_MSR_BNDCFGS`, `IA32_MSR_SPEC_CTRL`, `IA32_MSR_TSC_ADJUST`) are absent. -/
def msr_index_entries : List Nat :=
  [IA32_MSR_TSC,
   IA32_MSR_EFER,
   IA32_MSR_KERNEL_GS_BASE,
   IA32_MSR_APIC_BASE,
   IA32_MSR_PAT,
   IA32_MSR_SYSENTER_CS,
   IA32_MSR_SYSENTER_ESP,
   IA32_MSR_SYSENTER_EIP,
   IA32_MSR_STAR,
   IA32_MSR_LSTAR,
   IA32_MSR_CSTAR,
   IA32_MSR_SFMASK,
   IA32_MSR_MTRR_DEF_TYPE,
   IA32_MSR_MTRR_PHYSBASE0,
   IA32_MSR_MTRR_PHYSMASK0,
   IA32_MSR_MTRR_PHYSBASE1,
   IA32_MSR_MTRR_PHYSMASK1,
   IA32_MSR_MTRR_PHYSBASE2,
   IA32_MSR_MTRR_PHYSMASK2,
   IA32_MSR_MTRR_PHYSBASE3,
   IA32_MSR_MTRR_PHYSMASK3,
   IA32_MSR_MTRR_PHYSBASE4,
   IA32_MSR_MTRR_PHYSMASK4,
   IA32_MSR_MTRR_PHYSBASE5,
   IA32_MSR_MTRR_PHYSMASK5,
   IA32_MSR_MTRR_PHYSBASE6,
   IA32_MSR_MTRR_PHYSMASK6,
   IA32_MSR_MTRR_PHYSBASE7,
   IA32_MSR_MTRR_PHYSMASK7,
   IA32_MSR_MTRR_FIX64K_00000,
   IA32_MSR_MTRR_FIX16K_80000,
   IA32_MSR_MTRR_FIX16K_A0000,
   IA32_MSR_MTRR_FIX4K_C0000,
   IA32_MSR_MTRR_FIX4K_C8000,
   IA32_MSR_MTRR_FIX4K_D0000,
   IA32_MSR_MTRR_FIX4K_D8000,
   IA32_MSR_MTRR_FIX4K_E0000,
   IA32_MSR_MTRR_FIX4K_E8000,
   IA32_MSR_MTRR_FIX4K_F0000,
   IA32_MSR_MTRR_FIX4K_F8000,
   IA32_MSR_TSC_AUX,
   IA32_MSR_DEBUG_CTL,
   HV_X64_MSR_GUEST_OS_ID,
   HV_X64_MSR_SINT0,
   HV_X64_MSR_SINT1,
   HV_X64_MSR_SINT2,
   HV_X64_MSR_SINT3,
   HV_X64_MSR_SINT4,
   HV_X64_MSR_SINT5,
   HV_X64_MSR_SINT6,
   HV_X64_MSR_SINT7,
   HV_X64_MSR_SINT8,
   HV_X64_MSR_SINT9,
   HV_X64_MSR_SINT10,
   HV_X64_MSR_SINT11,
   HV_X64_MSR_SINT12,
   HV_X64_MSR_SINT13,
   HV_X64_MSR_SINT14,
   HV_X64_MSR_SINT15,
   HV_X64_MSR_SCONTROL,
   HV_X64_MSR_SIEFP,
   HV_X64_MSR_SIMP,
   HV_X64_MSR_REFERENCE_TSC,
   HV_X64_MSR_EOM]

/-- A length-prefixed MSR index list: `nmsrs` is the length header of the
flexible-array-member structure, `indices` its entries. -/
structure MsrList where
  nmsrs : Nat
  indices : List Nat
deriving DecidableEq, Repr

/-- Modelled from the spec: `MsrList::from_entries` (a `FamStructWrapper`
constructor from `mshv-bindings`/`vmm_sys_util`, outside the provided sources)
copies the entries and sets the length header; it fails only when the entry
count exceeds the structure's maximum capacity (a `usize`-scale bound, taken
here as `2 ^ 32`). -/
def MsrList.from_entries (entries : List Nat) : Option MsrList :=
  if entries.length < 2 ^ 32 then some ⟨entries.length, entries⟩ else none

/-- `Mshv::get_msr_index_list` (system.rs:146-229, gated
`#[cfg(target_arch = "x86_64")]`): returns
`Ok(MsrList::from_entries(&[...]).unwrap())`.  It performs no control call
(no I/O); the outer `Option` models the `.unwrap()` panic possibility
(`none` = panic), the inner `Except` the declared `Result` type. -/
def get_msr_index_list : Option (Except OsError MsrList) :=
  (MsrList.from_entries msr_index_entries).map Except.ok

/-!
Helper predicates, concrete kernels used as witnesses, and shape lemmas.
-/

/-- Whether a recorded call is the property-set call for the
synthetic-processor-feature code. -/
def isSetSynthFeatures : Call → Bool
  | Call.setPartitionProperty code _ =>
      code = HV_PARTITION_PROPERTY_SYNTHETIC_PROC_FEATURES
  | _ => false

/-- The property-set call issued by `create_vm_with_type`
(system.rs:129-132). -/
def setSynthCall (arch : Arch) : Call :=
  Call.setPartitionProperty HV_PARTITION_PROPERTY_SYNTHETIC_PROC_FEATURES
    (synthetic_proc_features arch)

/-- The documented capability-bit set of the synthetic-processor feature mask
(spec §4.2): thirteen named bits, with the idle-register-access bit omitted on
aarch64. -/
def documentedFeatureBit (arch : Arch) (b : Nat) : Bool :=
  (b == FEAT_BIT_hypervisor_present) || (b == FEAT_BIT_hv1) ||
  (b == FEAT_BIT_access_partition_reference_counter) ||
  (b == FEAT_BIT_access_synic_regs) ||
  (b == FEAT_BIT_access_synthetic_timer_regs) ||
  (b == FEAT_BIT_access_partition_reference_tsc) ||
  (b == FEAT_BIT_access_frequency_regs) ||
  (b == FEAT_BIT_access_intr_ctrl_regs) ||
  (b == FEAT_BIT_access_vp_index) ||
  (b == FEAT_BIT_access_hypercall_regs) ||
  (match arch with
   | Arch.aarch64 => false
   | Arch.x86_64 => b == FEAT_BIT_access_guest_idle_reg) ||
  (b == FEAT_BIT_tb_flush_hypercalls) ||
  (b == FEAT_BIT_synthetic_cluster_ipi) ||
  (b == FEAT_BIT_direct_synthetic_timers)

/-- A kernel responder on which every control call succeeds. -/
def kAllOk : Kernel :=
  { openDevice := fun _ _ => 3,
    createPartition := fun _ => 4,
    getHostPartitionProperty := fun _ => 40,
    setPartitionProperty := fun _ _ => 0,
    initializePartition := 0,
    lastError := 5 }

/-- A kernel responder on which the partition-creation call fails. -/
def kCreateFail : Kernel :=
  { openDevice := fun _ _ => 3,
    createPartition := fun _ => -1,
    getHostPartitionProperty := fun _ => 0,
    setPartitionProperty := fun _ _ => 0,
    initializePartition := 0,
    lastError := 13 }

/-- A kernel responder on which the device-open call fails. -/
def kOpenFail : Kernel :=
  { openDevice := fun _ _ => -2,
    createPartition := fun _ => 0,
    getHostPartitionProperty := fun _ => 0,
    setPartitionProperty := fun _ _ => 0,
    initializePartition := 0,
    lastError := 2 }

/-- When the creation control call succeeds, the trace of
`create_vm_with_type` is `[create, set-synth]`, optionally followed by the
initialize call. -/
theorem create_vm_with_type_trace_shape (arch : Arch) (k : Kernel)
    (vt : VmType) (h : 0 ≤ k.createPartition (createArgs vt)) :
    (create_vm_with_type arch k vt).2 =
        [Call.createPartition (createArgs vt), setSynthCall arch] ∨
    (create_vm_with_type arch k vt).2 =
        [Call.createPartition (createArgs vt), setSynthCall arch,
         Call.initializePartition] := by
  by_cases hs : k.setPartitionProperty
      HV_PARTITION_PROPERTY_SYNTHETIC_PROC_FEATURES
      (synthetic_proc_features arch) < 0
  · left
    simp [create_vm_with_type, create_vm_with_args, hvcall_set_partition_property,
      setSynthCall, h, hs]
  · right
    by_cases hi : k.initializePartition < 0 <;>
      simp [create_vm_with_type, create_vm_with_args, hvcall_set_partition_property,
        vmfd_initialize, setSynthCall, h, hs, hi]

/-- The first recorded call of `create_vm_with_type` is always the
partition-creation call with the assembled request. -/
theorem create_vm_with_type_trace_head (arch : Arch) (k : Kernel)
    (vt : VmType) :
    (create_vm_with_type arch k vt).2.head? =
      some (Call.createPartition (createArgs vt)) := by
  by_cases h : 0 ≤ k.createPartition (createArgs vt)
  · rcases create_vm_with_type_trace_shape arch k vt h with h2 | h2 <;>
      rw [h2] <;> rfl
  · simp [create_vm_with_type, create_vm_with_args, h]

/-!
Claim theorems.
-/

/-- C1: in `create_vm_with_type`, for every vm_type, once the
partition-creation control call has succeeded the property-set call for the
synthetic-processor-feature code appears exactly once in the issued call
trace, strictly after the creation call (which is at position 0), and every
initialize call in the trace occurs strictly after it. -/
theorem create_vm_with_type_sets_synth_features_once_between (arch : Arch)
    (k : Kernel) (vt : VmType)
    (h : 0 ≤ k.createPartition (createArgs vt)) :
    ((create_vm_with_type arch k vt).2.countP isSetSynthFeatures = 1) ∧
    ((create_vm_with_type arch k vt).2.get? 0 =
        some (Call.createPartition (createArgs vt))) ∧
    (∃ i, 0 < i ∧
      (create_vm_with_type arch k vt).2.get? i = some (setSynthCall arch) ∧
      ∀ j, (create_vm_with_type arch k vt).2.get? j =
          some Call.initializePartition → i < j) := by
  rcases create_vm_with_type_trace_shape arch k vt h with h2 | h2 <;> rw [h2]
  · refine ⟨by simp [isSetSynthFeatures, setSynthCall], rfl, 1, one_pos, rfl, ?_⟩
    intro j hj
    rcases j with _ | _ | j <;> simp [setSynthCall] at hj
  · refine ⟨by simp [isSetSynthFeatures, setSynthCall], rfl, 1, one_pos, rfl, ?_⟩
    intro j hj
    rcases j with _ | _ | _ | j <;> simp [setSynthCall] at hj
    omega

/-- C1 witness: on a kernel responder where every call succeeds, the
property-set call for the synthetic-feature code is counted exactly once. -/
theorem create_vm_with_type_sets_synth_features_once_between_witness :
    (create_vm_with_type Arch.x86_64 kAllOk VmType.normal).2.countP
      isSetSynthFeatures = 1 :=
  (create_vm_with_type_sets_synth_features_once_between Arch.x86_64 kAllOk
    VmType.normal (by decide)).1

/-- C2: the creation request issued by `create_vm_with_type` (the first call
of its trace, issued on every invocation) has flags equal to the bitwise-OR of
exactly the local-APIC, x2APIC and guest-physical-super-pages bits, and
isolation equal to the SNP constant when `vm_type` is Snp and the NONE
constant otherwise. -/
theorem create_vm_with_type_request_flags_isolation (arch : Arch) (k : Kernel)
    (vt : VmType) :
    (create_vm_with_type arch k vt).2.head? =
      some (Call.createPartition
        { pt_flags := (1 <<< MSHV_PT_BIT_LAPIC) ||| (1 <<< MSHV_PT_BIT_X2APIC)
                        ||| (1 <<< MSHV_PT_BIT_GPA_SUPER_PAGES),
          pt_isolation := if vt = VmType.snp then MSHV_PT_ISOLATION_SNP
                          else MSHV_PT_ISOLATION_NONE }) := by
  have hargs : createArgs vt =
      { pt_flags := (1 <<< MSHV_PT_BIT_LAPIC) ||| (1 <<< MSHV_PT_BIT_X2APIC)
                      ||| (1 <<< MSHV_PT_BIT_GPA_SUPER_PAGES),
        pt_isolation := if vt = VmType.snp then MSHV_PT_ISOLATION_SNP
                        else MSHV_PT_ISOLATION_NONE } := by
    simp [createArgs, set_bits]
  rw [← hargs]
  exact create_vm_with_type_trace_head arch k vt

/-- C3: every bit of the 64-bit synthetic-processor feature mask built by
`create_vm_with_type` is set exactly when it is one of the thirteen documented
capability bits, the idle-register-access bit being omitted on aarch64; no
other bit of the mask is set. -/
theorem synthetic_proc_features_bits (arch : Arch) (b : Nat) (hb : b < 64) :
    (synthetic_proc_features arch).testBit b = documentedFeatureBit arch b := by
  revert hb
  cases arch <;> revert b <;> decide

/-- C3 witness: the idle-register-access bit is present on x86_64. -/
theorem synthetic_proc_features_bits_witness :
    (synthetic_proc_features Arch.x86_64).testBit FEAT_BIT_access_guest_idle_reg
      = documentedFeatureBit Arch.x86_64 FEAT_BIT_access_guest_idle_reg :=
  synthetic_proc_features_bits Arch.x86_64 FEAT_BIT_access_guest_idle_reg
    (by decide)

/-- C4: when the partition-creation control call returns a negative status,
`create_vm_with_type` returns an `OsError` carrying the last system error
code, and its trace contains neither a property-set call nor an initialize
call. -/
theorem create_vm_with_type_propagates_create_failure (arch : Arch)
    (k : Kernel) (vt : VmType)
    (h : k.createPartition (createArgs vt) < 0) :
    ((create_vm_with_type arch k vt).1 = Except.error ⟨k.lastError⟩) ∧
    (∀ code v, Call.setPartitionProperty code v ∉
        (create_vm_with_type arch k vt).2) ∧
    (Call.initializePartition ∉ (create_vm_with_type arch k vt).2) := by
  have hn : ¬ 0 ≤ k.createPartition (createArgs vt) := not_le.mpr h
  have hfull : create_vm_with_type arch k vt =
      (Except.error ⟨k.lastError⟩, [Call.createPartition (createArgs vt)]) := by
    simp [create_vm_with_type, create_vm_with_args, hn]
  rw [hfull]
  refine ⟨rfl, ?_, by simp⟩
  intro code v
  simp

/-- C4 witness: on a kernel responder whose creation call returns -1 with last
error 13, the result is the error wrapping 13. -/
theorem create_vm_with_type_propagates_create_failure_witness :
    (create_vm_with_type Arch.x86_64 kCreateFail VmType.normal).1 =
      Except.error ⟨kCreateFail.lastError⟩ :=
  (create_vm_with_type_propagates_create_failure Arch.x86_64 kCreateFail
    VmType.normal (by decide)).1

/-- C5: `get_msr_index_list` (x86_64) performs no control call and always
returns `Ok`: its value is `some` (the `.unwrap()` does not panic) of `Ok` of
the fixed catalog, whose length header and entry count are exactly 64 and
which contains `IA32_MSR_SYSENTER_CS` exactly once. -/
theorem get_msr_index_list_ok_64_sysenter_once :
    get_msr_index_list = some (Except.ok ⟨64, msr_index_entries⟩) ∧
    msr_index_entries.length = 64 ∧
    msr_index_entries.count IA32_MSR_SYSENTER_CS = 1 :=
  ⟨rfl, by decide, by decide⟩

/-- C6: `get_host_partition_property` returns the error wrapping the last
system error code exactly when the underlying control call returns a negative
status, and otherwise returns `Ok` with the call's non-negative result. -/
theorem get_host_partition_property_result (k : Kernel) (code : Nat) :
    ((get_host_partition_property k code).1.1 = Except.error ⟨k.lastError⟩ ↔
      k.getHostPartitionProperty code < 0) ∧
    (0 ≤ k.getHostPartitionProperty code →
      (get_host_partition_property k code).1.1 =
        Except.ok (k.getHostPartitionProperty code)) := by
  by_cases h : 0 ≤ k.getHostPartitionProperty code
  · constructor
    · simp [get_host_partition_property, h]
    · intro _
      simp [get_host_partition_property, h]
  · constructor
    · simp [get_host_partition_property, h]
      omega
    · intro hc
      exact absurd hc h

/-- C6 witness: on a kernel responder answering 40, the query returns
`Ok 40`. -/
theorem get_host_partition_property_result_witness :
    (get_host_partition_property kAllOk 7).1.1 = Except.ok 40 :=
  (get_host_partition_property_result kAllOk 7).2 (by decide)

/-- C7: `open_with_cloexec` issues exactly one open of the fixed device path
`/dev/mshv` with a flags word in which the non-blocking flag is always set and
the close-on-exec flag is set if and only if the argument is true; it returns
the error wrapping the last system error code when the open returns a negative
value and the returned descriptor otherwise. -/
theorem open_with_cloexec_flags_and_result (k : Kernel) (b : Bool) :
    ((open_with_cloexec k b).2 = [Call.openDevice devicePath (openFlags b)]) ∧
    (openFlags b &&& O_NONBLOCK = O_NONBLOCK) ∧
    (openFlags b &&& O_CLOEXEC = if b then O_CLOEXEC else 0) ∧
    (k.openDevice devicePath (openFlags b) < 0 →
      (open_with_cloexec k b).1 = Except.error ⟨k.lastError⟩) ∧
    (0 ≤ k.openDevice devicePath (openFlags b) →
      (open_with_cloexec k b).1 =
        Except.ok (k.openDevice devicePath (openFlags b))) := by
  refine ⟨?_, ?_, ?_, ?_, ?_⟩
  · by_cases h : k.openDevice devicePath (openFlags b) < 0 <;>
      simp [open_with_cloexec, h]
  · cases b <;> decide
  · cases b <;> decide
  · intro h
    simp [open_with_cloexec, h]
  · intro h
    have hn : ¬ k.openDevice devicePath (openFlags b) < 0 := not_lt.mpr h
    simp [open_with_cloexec, hn]

/-- C7 witness: on a kernel responder whose open returns -2 with last error 2,
opening with close-on-exec yields the error wrapping 2. -/
theorem open_with_cloexec_flags_and_result_witness :
    (open_with_cloexec kOpenFail true).1 = Except.error ⟨kOpenFail.lastError⟩ :=
  (open_with_cloexec_flags_and_result kOpenFail true).2.2.2.1 (by decide)

/-- C8: for every property code the host accepts (non-negative status),
`get_host_partition_property` returns `Ok`, leaves the session unchanged, and
a second call with the same code on the resulting session returns the same
value. -/
theorem get_host_partition_property_stable (k : Kernel) (code : Nat)
    (h : 0 ≤ k.getHostPartitionProperty code) :
    ((get_host_partition_property k code).2 = k) ∧
    (∃ v, (get_host_partition_property k code).1.1 = Except.ok v ∧
      (get_host_partition_property
        ((get_host_partition_property k code).2) code).1.1 = Except.ok v) := by
  refine ⟨rfl, k.getHostPartitionProperty code, ?_, ?_⟩ <;>
    simp [get_host_partition_property, h]

/-- C8 witness: on a kernel responder answering 40, two consecutive queries
both return `Ok 40` with the session unchanged. -/
theorem get_host_partition_property_stable_witness :
    (get_host_partition_property kAllOk 9).2 = kAllOk :=
  (get_host_partition_property_stable kAllOk 9 (by decide)).1

/-- C9: round-trip of the capability bitmask for vm_type Normal — every bit of
the flags value built by `create_vm_with_type` decodes to exactly
{local-APIC, x2APIC, guest-physical super pages}, the isolation decodes to
NONE, and every bit of the feature-mask value on the reference architecture
decodes to exactly the documented capability set. -/
theorem normal_capability_bitmask_roundtrip (b : Nat) (hb : b < 64) :
    ((createArgs VmType.normal).pt_flags.testBit b =
      ((b == MSHV_PT_BIT_LAPIC) || (b == MSHV_PT_BIT_X2APIC) ||
       (b == MSHV_PT_BIT_GPA_SUPER_PAGES))) ∧
    ((createArgs VmType.normal).pt_isolation = MSHV_PT_ISOLATION_NONE) ∧
    ((synthetic_proc_features Arch.x86_64).testBit b =
      documentedFeatureBit Arch.x86_64 b) := by
  revert b
  decide

/-- C9 witness: bit 0 of the Normal flags word is the local-APIC bit, and bit
0 of the feature mask is the hypervisor-present bit. -/
theorem normal_capability_bitmask_roundtrip_witness :
    ((createArgs VmType.normal).pt_flags.testBit 0 =
      ((0 == MSHV_PT_BIT_LAPIC) || (0 == MSHV_PT_BIT_X2APIC) ||
       (0 == MSHV_PT_BIT_GPA_SUPER_PAGES))) ∧
    ((createArgs VmType.normal).pt_isolation = MSHV_PT_ISOLATION_NONE) ∧
    ((synthetic_proc_features Arch.x86_64).testBit 0 =
      documentedFeatureBit Arch.x86_64 0) :=
  normal_capability_bitmask_roundtrip 0 (by decide)

/-- C10: `create_vm` is extensionally equal to `create_vm_with_type` at
`VmType::Normal` — on every session it returns the same result and issues the
same call trace. -/
theorem create_vm_eq_create_vm_with_type_normal (arch : Arch) (k : Kernel) :
    create_vm arch k = create_vm_with_type arch k VmType.normal := rfl

end MshvSys
